import Mathlib

/-!
Shallow embedding of the CloudEdging Shield edge worker
(core.js, security.js, web_handler.js, utils.js, AI gateway module).

HTTP requests and responses are modelled as records of strings; header maps
are association lists with case-insensitive lookup, matching the JS Headers
semantics observable through get/set/delete.  External stores (edge cache,
key-value store, object bucket, vector index) and the origin are inputs to
the handler functions; deferred background work (ctx.waitUntil) is modelled
as an explicit list of scheduled tasks in each handler outcome.
-/

namespace Shield

/-- listStartsWith l p is true when p is an initial segment of l. -/
def listStartsWith : List Char → List Char → Bool
  | _, [] => true
  | [], _ :: _ => false
  | a :: as, b :: bs => a == b && listStartsWith as bs

/-- listHasSub l sub is true when sub occurs contiguously inside l. -/
def listHasSub : List Char → List Char → Bool
  | [], sub => listStartsWith [] sub
  | a :: as, sub => listStartsWith (a :: as) sub || listHasSub as sub

/-- jsIncludes models the JavaScript String.prototype.includes. -/
def jsIncludes (s sub : String) : Bool := listHasSub s.data sub.data

/-- lowerStr lowercases every character of a string. -/
def lowerStr (s : String) : String := String.mk (s.data.map Char.toLower)

/-- jsIncludesCI is a case-insensitive substring test, modelling a
case-insensitive regex literal-alternative test. -/
def jsIncludesCI (s sub : String) : Bool := jsIncludes (lowerStr s) (lowerStr sub)

/-- jsEndsWith models String.prototype.endsWith. -/
def jsEndsWith (s suf : String) : Bool := listStartsWith s.data.reverse suf.data.reverse

/-- digitsVal folds a list of decimal digits into a natural number. -/
def digitsVal (ds : List Char) : Nat := ds.foldl (fun acc c => acc * 10 + (c.toNat - 48)) 0

/-- jsParseInt models JavaScript parseInt in base 10: skip leading spaces,
an optional sign, then the longest digit run; none models NaN. -/
def jsParseInt (s : String) : Option Int :=
  let cs := s.data.dropWhile (fun c => c == ' ')
  let signed : Bool × List Char :=
    match cs with
    | '-' :: rest => (true, rest)
    | '+' :: rest => (false, rest)
    | _ => (false, cs)
  let ds := signed.2.takeWhile Char.isDigit
  if ds.isEmpty then none
  else some (if signed.1 then -(digitsVal ds : Int) else (digitsVal ds : Int))

/-- hexVal decodes one hexadecimal digit. -/
def hexVal (c : Char) : Option Nat :=
  if 48 ≤ c.toNat ∧ c.toNat ≤ 57 then some (c.toNat - 48)
  else if 97 ≤ c.toNat ∧ c.toNat ≤ 102 then some (c.toNat - 87)
  else if 65 ≤ c.toNat ∧ c.toNat ≤ 70 then some (c.toNat - 55)
  else none

/-- contByte decodes a percent-escaped UTF-8 continuation byte: the two
hex digits must form a byte in the range 128..191, and the result is its
low six bits. -/
def contByte (c d : Char) : Option Nat :=
  match hexVal c, hexVal d with
  | some x, some y =>
    let v := 16 * x + y
    if 128 ≤ v ∧ v ≤ 191 then some (v - 128) else none
  | _, _ => none

/-- jsDecodeList models the ECMA-262 Decode algorithm backing
decodeURIComponent.  Percent-escapes are decoded as strict UTF-8 byte
sequences; none models a thrown URIError: a percent sign not followed by
two hex digits, a stray or missing continuation byte, an overlong,
surrogate-range, or out-of-range sequence.  Characters outside escapes
pass through unchanged. -/
def jsDecodeList : List Char → Option (List Char)
  | [] => some []
  | '%' :: a :: b :: rest =>
    match hexVal a, hexVal b with
    | some x, some y =>
      let v := 16 * x + y
      if v < 128 then (jsDecodeList rest).map (fun l => Char.ofNat v :: l)
      else if 194 ≤ v ∧ v ≤ 223 then
        match rest with
        | '%' :: c :: d :: rest2 =>
          match contByte c d with
          | some c1 => (jsDecodeList rest2).map (fun l => Char.ofNat ((v - 192) * 64 + c1) :: l)
          | none => none
        | _ => none
      else if 224 ≤ v ∧ v ≤ 239 then
        match rest with
        | '%' :: c :: d :: '%' :: e :: f :: rest2 =>
          match contByte c d, contByte e f with
          | some c1, some c2 =>
            if (v = 224 ∧ c1 < 32) ∨ (v = 237 ∧ 32 ≤ c1) then none
            else (jsDecodeList rest2).map
              (fun l => Char.ofNat ((v - 224) * 4096 + c1 * 64 + c2) :: l)
          | _, _ => none
        | _ => none
      else if 240 ≤ v ∧ v ≤ 244 then
        match rest with
        | '%' :: c :: d :: '%' :: e :: f :: '%' :: g :: h :: rest2 =>
          match contByte c d, contByte e f, contByte g h with
          | some c1, some c2, some c3 =>
            if (v = 240 ∧ c1 < 16) ∨ (v = 244 ∧ 16 ≤ c1) then none
            else (jsDecodeList rest2).map
              (fun l => Char.ofNat ((v - 240) * 262144 + c1 * 4096 + c2 * 64 + c3) :: l)
          | _, _, _ => none
        | _ => none
      else none
    | _, _ => none
  | '%' :: _ => none
  | c :: rest => (jsDecodeList rest).map (fun l => c :: l)

/-- decodeURIComponent models the JS builtin as used on url.search:
some on success, none when the builtin throws URIError. -/
def decodeURIComponent (s : String) : Option String := (jsDecodeList s.data).map String.mk

/-- hget is the case-insensitive header lookup of JS Headers.get. -/
def hget (hs : List (String × String)) (k : String) : Option String :=
  (hs.find? (fun p => lowerStr p.1 == lowerStr k)).map (fun p => p.2)

/-- hset replaces a header, modelling JS Headers.set. -/
def hset (hs : List (String × String)) (k v : String) : List (String × String) :=
  (k, v) :: hs.filter (fun p => lowerStr p.1 != lowerStr k)

/-- hdel removes a header, modelling JS Headers.delete. -/
def hdel (hs : List (String × String)) (k : String) : List (String × String) :=
  hs.filter (fun p => lowerStr p.1 != lowerStr k)

/-- Response is an HTTP response: status, body, header list. -/
structure Response where
  status : Nat
  body : String
  headers : List (String × String)
deriving DecidableEq

/-- Request is an inbound HTTP request as seen by the worker: method,
url.pathname, url.search, url.hostname and the header list. -/
structure Request where
  method : String
  pathname : String
  search : String
  hostname : String
  headers : List (String × String)
deriving DecidableEq

/-- Request.header is the case-insensitive header lookup on a request. -/
def Request.header (r : Request) (k : String) : Option String := hget r.headers k

/-- Config is the per-tenant ClientConfig loaded from the key-value store,
with the fields the embedded handlers read.  none models an absent field. -/
structure Config where
  mode : String := "STANDARD"
  cache_ttl : Option Nat := some 3600
  rate_limit_enabled : Bool := false
  rate_limit_threshold : Option Nat := none
  blocked_countries : Option (List String) := none
  purge_secret : Option String := none
  cloudflare_plan : Option String := none
  ai_max_request_size : Option Nat := none
  semantic_cache_threshold : Option ℚ := none
deriving DecidableEq

/-- jsOrNat models the JS expression x || d on an optional number:
absent or zero (falsy) falls back to the default. -/
def jsOrNat (x : Option Nat) (d : Nat) : Nat :=
  match x with
  | some n => if n == 0 then d else n
  | none => d

/-- jsOrQ models x || d on an optional rational (zero is falsy). -/
def jsOrQ (x : Option ℚ) (d : ℚ) : ℚ :=
  match x with
  | some q => if q == 0 then d else q
  | none => d

/-- jsOrStr models x || d on an optional string (empty string is falsy). -/
def jsOrStr (x : Option String) (d : String) : String :=
  match x with
  | some s => if s == "" then d else s
  | none => d

/-- jsOrStrOpt models a || b on two optional strings. -/
def jsOrStrOpt (a b : Option String) : Option String :=
  match a with
  | some s => if s == "" then b else some s
  | none => b

/-- addShieldHeader copies a response and sets X-Shield-Status,
from utils.js addShieldHeader. -/
def addShieldHeader (r : Response) (s : String) : Response :=
  { r with headers := hset r.headers "X-Shield-Status" s }

/-! ## Cache Decision Engine (web_handler.js handleWebTraffic) -/

/-- WebTask is a deferred background task scheduled by handleWebTraffic:
a stale-while-revalidate refresh (refreshCache) or an asynchronous cache
store (saveToCache) of the tagged response with the effective TTL. -/
inductive WebTask
  | refresh
  | store (resp : Response) (ttl : Nat)
deriving DecidableEq

/-- WebOutcome is the observable outcome of handleWebTraffic: the response
returned to the caller and the deferred tasks passed to ctx.waitUntil. -/
structure WebOutcome where
  response : Response
  tasks : List WebTask
deriving DecidableEq

/-- webIsAuthenticated is the authentication heuristic of handleWebTraffic:
cookie signatures or authorization scheme prefixes, case-insensitive. -/
def webIsAuthenticated (req : Request) : Bool :=
  let cookies := (Request.header req "Cookie").getD ""
  let auth := (Request.header req "Authorization").getD ""
  (["session", "cart", "logged_in", "auth_token", "user_id", "SESS"].any
      (fun p => jsIncludesCI cookies p)) ||
  (["Bearer", "Basic", "Token", "OAuth"].any (fun p => jsIncludesCI auth p))

/-- webIsAggressive is the isAggressive test of handleWebTraffic. -/
def webIsAggressive (cfg : Config) : Bool :=
  ["ECOMMERCE", "STANDARD", "IOT"].contains cfg.mode

/-- webShouldCache is the cache decision of handleWebTraffic before the
origin guard.  The source initializes shouldCache from the negated write
test, but both branches of the mode check then reassign it unconditionally,
so the write-method guard is dead in the source; the dead initializer is
kept here under an unused binder. -/
def webShouldCache (req : Request) (cfg : Config) : Bool :=
  let isWrite := ["POST", "PUT", "DELETE", "PATCH"].contains req.method
  let isApiMode := cfg.mode == "API" || cfg.mode == "REALTIME"
  let _shouldCacheInit := !isWrite
  let shouldCache1 :=
    if webIsAggressive cfg then
      if webIsAuthenticated req then false else true
    else
      let bypassHeaders :=
        jsIncludes ((Request.header req "Cache-Control").getD "") "no-cache" ||
        ((Request.header req "Pragma").getD "") == "no-cache"
      !(webIsAuthenticated req) && !bypassHeaders
  if isApiMode || jsIncludes req.pathname "/api/" || jsIncludes req.pathname "/checkout/" then
    false
  else shouldCache1

/-- handleWebTraffic embeds the Cache Decision Engine.  Inputs beyond the
request and config: cached is the edge-cache content at the normalized key
(cache.match result), now is Date.now(), origin is the fetchFromOrigin
result.  The freshness test parses the injected X-Shield-Age header; a
non-numeric value gives NaN in the source and the comparison fails, which
lands in the stale branch. -/
def handleWebTraffic (req : Request) (cfg : Config) (cached : Option Response)
    (now : Int) (origin : Response) : WebOutcome :=
  let sc := webShouldCache req cfg
  match (if sc then cached else none) with
  | some c =>
    match jsParseInt ((hget c.headers "X-Shield-Age").getD "0") with
    | some age =>
      if now - age < 3600000 then ⟨addShieldHeader c "HIT", []⟩
      else ⟨addShieldHeader c "SWR", [WebTask.refresh]⟩
    | none => ⟨addShieldHeader c "SWR", [WebTask.refresh]⟩
  | none =>
    let originForbids := jsIncludes ((hget origin.headers "Cache-Control").getD "") "no-store"
    let sc2 := if sc && originForbids && !(webIsAggressive cfg) then false else sc
    let statusTag := if sc2 then "MISS" else "BYPASS"
    let finalResponse := addShieldHeader origin statusTag
    if sc2 && origin.status == 200 then
      ⟨finalResponse, [WebTask.store finalResponse (jsOrNat cfg.cache_ttl 3600)]⟩
    else ⟨finalResponse, []⟩

/-! ## Security Gate (security.js runSecurityPipeline) -/

/-- corsPreflightResponse is the canned 204 returned by rule A. -/
def corsPreflightResponse : Response :=
  ⟨204, "",
   [("Access-Control-Allow-Origin", "*"),
    ("Access-Control-Allow-Methods", "GET,POST,PUT,DELETE,OPTIONS,PATCH"),
    ("Access-Control-Allow-Headers", "Content-Type,Authorization,X-API-Key,anthropic-version"),
    ("Access-Control-Max-Age", "86400")]⟩

/-- geoBlockResponse is the 451 body returned by rule B. -/
def geoBlockResponse (country : String) : Response :=
  ⟨451, "\x7b\"error\":\"Forbidden\",\"country\":\"" ++ country ++ "\"\x7d", []⟩

/-- rateLimitResponse is the 429 returned by rule C. -/
def rateLimitResponse : Response :=
  ⟨429, "\x7b\"error\":\"Rate limit exceeded\",\"retry_after\":60\x7d",
   [("Content-Type", "application/json"), ("Retry-After", "60")]⟩

/-- purgeForbiddenResponse is the 403 for a wrong purge token. -/
def purgeForbiddenResponse : Response := ⟨403, "Forbidden", []⟩

/-- purgeOkResponse is the 200 after a successful cache delete. -/
def purgeOkResponse : Response := ⟨200, "Cache Purged", []⟩

/-- purgeFailResponse is the 500 when the cache delete throws. -/
def purgeFailResponse : Response := ⟨500, "Purge Failed", []⟩

/-- wafForbiddenResponse is the 403 returned by rule E. -/
def wafForbiddenResponse : Response := ⟨403, "Forbidden", []⟩

/-- apiPathWords are the alternatives of the API-path regex of rule A. -/
def apiPathWords : List String :=
  ["api", "v1", "v2", "v3", "graphql", "rest", "models", "chat", "embeddings", "messages"]

/-- isApiPath tests the pathname against the API-path regex: a slash
followed by one of the listed words, anywhere in the path. -/
def isApiPath (p : String) : Bool := apiPathWords.any (fun w => jsIncludes p ("/" ++ w))

/-- corsCond is the guard of rule A: an OPTIONS request in API or
AI_INFERENCE mode or on an API-shaped path. -/
def corsCond (req : Request) (cfg : Config) : Bool :=
  req.method == "OPTIONS" &&
    (cfg.mode == "API" || cfg.mode == "AI_INFERENCE" || isApiPath req.pathname)

/-- geoCond is the guard of rule B: a nonempty configured block list
containing the resolved country. -/
def geoCond (cfg : Config) (country : String) : Bool :=
  match cfg.blocked_countries with
  | some l => !l.isEmpty && l.contains country
  | none => false

/-- suspiciousHit tests the WAF signature alternatives against a string:
script tag, SQL-injection, boolean tautology (case-insensitive) and the
case-sensitive parent-directory traversal pattern. -/
def suspiciousHit (hay : String) : Bool :=
  jsIncludesCI hay "<script>" || jsIncludesCI hay "UNION SELECT" ||
  jsIncludesCI hay "OR 1=1" || jsIncludes hay "../"

/-- wafCond is the rule E scan for a successfully decoded query string:
the scan runs only when the raw query string is nonempty or the path
contains a dot-dot, and then tests the signatures against the decoded
query concatenated with the path.  Rule E first runs decodeURIComponent
on the raw query, which can throw; that error path is handled in
runSecurityPipeline, not here. -/
def wafCond (pathname search decoded : String) : Bool :=
  (search != "" || jsIncludes pathname "..") && suspiciousHit (decoded ++ pathname)

/-- SecTask is a deferred task scheduled by the Security Gate: the
fire-and-forget rate-limit counter increment (incrementRateLimit), carrying
the key and the parsed current count (none models NaN). -/
inductive SecTask
  | rlIncrement (key : String) (current : Option Int)
deriving DecidableEq

/-- SecResult is how the Security Gate ends: the request passes to the
mode handler, a rule denies it with a terminal response, or rule E throws
URIError at decodeURIComponent (the exception escapes the gate and lands
in the dispatcher's outer catch). -/
inductive SecResult
  | pass
  | deny (r : Response)
  | uriError
deriving DecidableEq

/-- SecOutcome is the observable outcome of runSecurityPipeline: how the
gate ended and the deferred tasks scheduled before that point (a
rate-limit increment scheduled at rule C stays scheduled even when a
later rule denies or throws). -/
structure SecOutcome where
  result : SecResult
  tasks : List SecTask
deriving DecidableEq

/-- KVRead is the result of the rate-limit counter read: the store threw,
or it returned an optional value (none models a missing key). -/
inductive KVRead
  | threw
  | ok (v : Option String)
deriving DecidableEq

/-- SecEnv bundles the environment read by the Security Gate: whether the
key-value store is bound, the client identifier, the resolved country of
the request, the result of the counter read, the PURGE_SECRET binding, and
whether the cache delete succeeds. -/
structure SecEnv where
  kvBound : Bool
  clientId : Option String
  country : Option String
  kvRead : KVRead
  purgeSecretEnv : Option String
  cacheDeleteOk : Bool
deriving DecidableEq

/-- purgeTokenMatches models the strict inequality check of rule D between
the purge token header and the effective secret: a missing token never
matches a missing secret (null versus undefined are distinct in JS). -/
def purgeTokenMatches (token secret : Option String) : Bool :=
  match token, secret with
  | some t, some s => t == s
  | _, _ => false

/-- jsTemplate renders an optional JS string in a template literal:
a missing value prints as the given keyword (null or undefined). -/
def jsTemplate (x : Option String) (missing : String) : String :=
  match x with
  | some s => s
  | none => missing

/-- rateStage is rule C of the Security Gate in isolation: it yields an
optional terminal response and the scheduled increments.  A failed counter
read is caught and ignored (fail-open). -/
def rateStage (req : Request) (cfg : Config) (env : SecEnv) :
    Option Response × List SecTask :=
  if env.kvBound && cfg.rate_limit_enabled then
    let ip := jsTemplate (Request.header req "CF-Connecting-IP") "null"
    let limitKey := "RL_" ++ jsTemplate env.clientId "undefined" ++ "_" ++ ip
    match env.kvRead with
    | KVRead.threw => (none, [])
    | KVRead.ok v =>
      let threshold := jsOrNat cfg.rate_limit_threshold 100
      match jsParseInt (v.getD "0") with
      | some c =>
        if (threshold : Int) ≤ c then (some rateLimitResponse, [])
        else (none, [SecTask.rlIncrement limitKey (some c)])
      | none => (none, [SecTask.rlIncrement limitKey none])
  else (none, [])

/-- runSecurityPipeline embeds security.js runSecurityPipeline: rules A to
E in order, first denial wins.  Rule E runs decodeURIComponent on the raw
query string unconditionally before its guard; a malformed query makes it
throw, which ends the gate with uriError (the dispatcher's outer catch
turns this into the 500 Shield Error).  A passing gate returns pass
together with any scheduled rate-limit increment. -/
def runSecurityPipeline (req : Request) (cfg : Config) (env : SecEnv) : SecOutcome :=
  if corsCond req cfg then ⟨SecResult.deny corsPreflightResponse, []⟩
  else
    let country := jsOrStr env.country "XX"
    if geoCond cfg country then ⟨SecResult.deny (geoBlockResponse country), []⟩
    else
      match rateStage req cfg env with
      | (some r, ts) => ⟨SecResult.deny r, ts⟩
      | (none, ts) =>
        if Request.header req "X-CloudEdging-Command" == some "PURGE" then
          let secret := jsOrStrOpt cfg.purge_secret env.purgeSecretEnv
          if !purgeTokenMatches (Request.header req "X-CloudEdging-Purge-Token") secret then
            ⟨SecResult.deny purgeForbiddenResponse, ts⟩
          else if env.cacheDeleteOk then ⟨SecResult.deny purgeOkResponse, ts⟩
          else ⟨SecResult.deny purgeFailResponse, ts⟩
        else
          match decodeURIComponent req.search with
          | none => ⟨SecResult.uriError, ts⟩
          | some searchString =>
            if wafCond req.pathname req.search searchString then
              ⟨SecResult.deny wafForbiddenResponse, ts⟩
            else ⟨SecResult.pass, ts⟩

/-! ## Storage Mirror Engine (core.js handleR2Storage) -/

/-- R2Obj is an object read from the storage bucket: body plus the
headers written by writeHttpMetadata. -/
structure R2Obj where
  body : String
  httpMeta : List (String × String)
deriving DecidableEq

/-- R2Effect records a synchronous access to the storage bucket. -/
inductive R2Effect
  | bucketGet (key : String)
deriving DecidableEq

/-- R2Task is a deferred task scheduled by handleR2Storage: the edge-cache
save on a bucket hit, or the background mirror evaluation on a miss. -/
inductive R2Task
  | edgeCacheSave
  | mirror (key : String)
deriving DecidableEq

/-- R2Outcome is the outcome of handleR2Storage: either a fall-through to
the web traffic handler, or a served response with the bucket effects
performed and the deferred tasks scheduled. -/
inductive R2Outcome
  | web
  | served (resp : Response) (effects : List R2Effect) (tasks : List R2Task)
deriving DecidableEq

/-- R2Env is the environment of the Storage Mirror Engine: the bucket
binding, whether the bucket get throws, the bucket content, and the origin
response used on a miss. -/
structure R2Env where
  bucketBound : Bool
  getRaises : Bool
  bucket : String → Option R2Obj
  origin : Response

/-- staticExts are the alternatives of the static-extension regex. -/
def staticExts : List String :=
  ["jpg", "jpeg", "png", "gif", "webp", "svg", "ico", "css", "js", "woff", "woff2",
   "ttf", "eot", "otf", "mp4", "webm", "mp3", "pdf", "txt", "json", "zip", "bin"]

/-- staticExtTest is the anchored case-insensitive extension test. -/
def staticExtTest (p : String) : Bool :=
  staticExts.any (fun e => jsEndsWith (lowerStr p) ("." ++ e))

/-- contentTypeTable is the extension-to-MIME table of getContentType. -/
def contentTypeTable : List (String × String) :=
  [("jpg", "image/jpeg"), ("jpeg", "image/jpeg"), ("png", "image/png"),
   ("gif", "image/gif"), ("webp", "image/webp"), ("svg", "image/svg+xml"),
   ("ico", "image/x-icon"), ("css", "text/css"), ("js", "application/javascript"),
   ("json", "application/json"), ("woff", "font/woff"), ("woff2", "font/woff2"),
   ("ttf", "font/ttf"), ("eot", "application/vnd.ms-fontobject"), ("otf", "font/otf"),
   ("mp4", "video/mp4"), ("webm", "video/webm"), ("mp3", "audio/mpeg"),
   ("pdf", "application/pdf"), ("txt", "text/plain"), ("zip", "application/zip"),
   ("bin", "application/octet-stream")]

/-- getContentType embeds core.js getContentType: lowercase final
dot-segment looked up in the MIME table, defaulting to octet-stream. -/
def getContentType (filename : String) : String :=
  let ext := lowerStr ((filename.splitOn ".").getLastD filename)
  match contentTypeTable.find? (fun p => p.1 == ext) with
  | some p => p.2
  | none => "application/octet-stream"

/-- r2KeyOf is the sanitized storage key: the path with one leading slash
stripped. -/
def r2KeyOf (path : String) : String :=
  if listStartsWith path.data ['/'] then String.mk (path.data.drop 1) else path

/-- mirrorableTypes is the content-type allowlist of the mirror task. -/
def mirrorableTypes : List String :=
  ["image/", "video/", "audio/", "javascript", "css", "font", "woff",
   "application/pdf", "application/zip", "application/octet-stream"]

/-- shouldMirror is the eligibility predicate evaluated inside the
background mirror task, over the origin response headers: declared length
strictly between zero and 100 MB, a mirrorable content type, and no
no-store or private directive. -/
def shouldMirror (h : List (String × String)) : Bool :=
  let contentType := (hget h "Content-Type").getD ""
  let cacheControl := (hget h "Cache-Control").getD ""
  let isMirrorableType := mirrorableTypes.any (fun t => jsIncludes contentType t)
  match jsParseInt ((hget h "Content-Length").getD "0") with
  | some n =>
    decide (0 < n) && decide (n < 100 * 1024 * 1024) && isMirrorableType &&
    !(jsIncludes cacheControl "no-store") && !(jsIncludes cacheControl "private")
  | none => false

/-- mirrorPuts gives the bucket writes performed when the deferred mirror
task for a key runs against the origin response: one put under the key
when eligible, none otherwise. -/
def mirrorPuts (key : String) (origin : Response) : List String :=
  if shouldMirror origin.headers then [key] else []

/-- handleR2Storage embeds the Storage Mirror Engine of core.js: extension
gate, bucket-binding gate, key sanitization, bucket lookup with the hit
response construction, and the miss path tagging R2-MISS and scheduling the
background mirror task on an origin 200. -/
def handleR2Storage (req : Request) (env : R2Env) : R2Outcome :=
  let path := req.pathname
  if !staticExtTest path then R2Outcome.web
  else if !env.bucketBound then R2Outcome.web
  else
    let r2Key := r2KeyOf path
    if jsIncludes r2Key ".." || jsIncludes r2Key "//" then
      R2Outcome.served ⟨400, "Invalid path", []⟩ [] []
    else
      match (if env.getRaises then none else env.bucket r2Key) with
      | some obj =>
        let hs0 := obj.httpMeta
        let hs1 :=
          if (hget hs0 "Content-Type").isSome then hs0
          else hset hs0 "Content-Type" (getContentType r2Key)
        let hs2 :=
          hset (hset (hset (hset hs1 "X-Shield-Storage" "R2-HIT")
            "X-Shield-Origin" "R2") "Access-Control-Allow-Origin" "*")
            "Cache-Control" "public, max-age=31536000, immutable"
        R2Outcome.served ⟨200, obj.body, hs2⟩ [R2Effect.bucketGet r2Key] [R2Task.edgeCacheSave]
      | none =>
        let originTagged := addShieldHeader env.origin "R2-MISS"
        if env.origin.status == 200 then
          R2Outcome.served originTagged [R2Effect.bucketGet r2Key] [R2Task.mirror r2Key]
        else
          R2Outcome.served originTagged [R2Effect.bucketGet r2Key] []

/-! ## Semantic cache lookup (ai module semanticCachePipeline) -/

/-- VecMatch is one nearest-neighbor match returned by the vector index
query: identifier, cosine similarity score, and the model name stored in
the vector metadata. -/
structure VecMatch where
  id : String
  score : ℚ
  modelMeta : Option String
deriving DecidableEq

/-- SemEffect records an external access made by the semantic cache
lookup.  vecDelete is included to make explicit that the pipeline never
deletes a vector: no branch produces it. -/
inductive SemEffect
  | vecQuery
  | kvRead (id : String)
  | vecDelete (id : String)
deriving DecidableEq

/-- SemHit is the content of a semantic cache hit: the payload fetched
from the key-value store, the similarity score, and the cached model name
placed in the hit headers. -/
structure SemHit where
  payload : String
  score : ℚ
  modelName : String
deriving DecidableEq

/-- SemOutcome is the outcome of semanticCachePipeline: an optional hit
(none is a miss, on which the request proceeds to standard routing) and
the external accesses performed. -/
structure SemOutcome where
  result : Option SemHit
  effects : List SemEffect
deriving DecidableEq

/-- semanticThreshold is the effective similarity threshold: the
configured value, with zero or absent falling back to the default 0.92. -/
def semanticThreshold (cfg : Config) : ℚ := jsOrQ cfg.semantic_cache_threshold (92 / 100)

/-- semanticCachePipeline embeds the semantic cache lookup.  promptText is
the extracted prompt (extractPromptForEmbedding result), matches is the
topK-1 vector index query result, kv is the key-value payload store.  The
embedding computation does not affect the decision and is abstracted away.
The function is total: an orphaned vector (score at or above threshold but
payload absent) yields a miss, never an exception, and no branch deletes a
vector. -/
def semanticCachePipeline (promptText : String) (cfg : Config)
    (queryMatches : List VecMatch) (kv : String → Option String) : SemOutcome :=
  if promptText.length < 10 then ⟨none, []⟩
  else
    let threshold := semanticThreshold cfg
    match queryMatches with
    | [] => ⟨none, [SemEffect.vecQuery]⟩
    | best :: _ =>
      if threshold ≤ best.score then
        match kv best.id with
        | some payload =>
          ⟨some ⟨payload, best.score, best.modelMeta.getD "unknown"⟩,
           [SemEffect.vecQuery, SemEffect.kvRead best.id]⟩
        | none => ⟨none, [SemEffect.vecQuery, SemEffect.kvRead best.id]⟩
      else ⟨none, [SemEffect.vecQuery]⟩

/-! ## LLM Gateway request validation (ai module validateAIRequest) -/

/-- allowedAIMethods is the fixed allowed method set of the router. -/
def allowedAIMethods : List String := ["POST", "GET", "PUT", "PATCH"]

/-- aiWriteMethods are the methods required to declare a JSON body. -/
def aiWriteMethods : List String := ["POST", "PUT", "PATCH"]

/-- ai405Response is the method-not-allowed response with Allow header. -/
def ai405Response : Response :=
  ⟨405, "Method not allowed",
   [("Allow", "POST, GET, PUT, PATCH"), ("Content-Type", "application/json")]⟩

/-- ai400Response is the invalid-content-type response. -/
def ai400Response : Response :=
  ⟨400, "\x7b\"error\":\"Invalid Content-Type\",\"message\":\"Must be application/json\"\x7d",
   [("Content-Type", "application/json")]⟩

/-- ai413Response is the request-too-large response for a given cap. -/
def ai413Response (maxSize : Nat) : Response :=
  ⟨413, "\x7b\"error\":\"Request too large\",\"max_size_bytes\":" ++ toString maxSize ++ "\x7d",
   [("Content-Type", "application/json")]⟩

/-- validateAIRequest embeds the router validation: method gate, JSON
content-type gate for write methods, then the declared-length cap with
default 10485760 bytes; none means the request passes validation. -/
def validateAIRequest (req : Request) (cfg : Config) : Option Response :=
  if !(allowedAIMethods.contains req.method) then some ai405Response
  else if aiWriteMethods.contains req.method &&
      !(jsIncludes ((Request.header req "content-type").getD "") "application/json") then
    some ai400Response
  else
    let maxSize := jsOrNat cfg.ai_max_request_size 10485760
    match jsParseInt ((Request.header req "content-length").getD "0") with
    | some n => if (maxSize : Int) < n then some (ai413Response maxSize) else none
    | none => none

/-! ## Response fortification and the dispatcher (utils.js, core.js) -/

/-- fortifyHeaderDeletes are the origin-identifying headers stripped by
fortifyResponse. -/
def fortifyHeaderDeletes : List String :=
  ["server", "x-powered-by", "x-aspnet-version", "x-runtime", "x-vignette",
   "via", "x-origin-server"]

/-- fortifyResponse embeds utils.js fortifyResponse: version and client
identity headers, the hardening headers, conditional CSP for non-API
responses, stripping of origin-identifying headers, and CORS headers for
API responses. -/
def fortifyResponse (res : Response) (cfg : Config) (clientId : Option String)
    (hostname : String) : Response :=
  let isApi := cfg.mode == "API" || jsIncludes hostname "api."
  let h1 := hset res.headers "X-Shield-Version" "2.7.0"
  let h2 := hset h1 "X-Shield-Client-ID" (jsOrStr clientId "unknown")
  let h3 := hset h2 "Strict-Transport-Security" "max-age=31536000; includeSubDomains; preload"
  let h4 := hset h3 "X-Content-Type-Options" "nosniff"
  let h5 := hset h4 "X-Frame-Options" "SAMEORIGIN"
  let h6 := hset h5 "Referrer-Policy" "strict-origin-when-cross-origin"
  let h7 := if !isApi then hset h6 "Content-Security-Policy" "upgrade-insecure-requests" else h6
  let h8 := fortifyHeaderDeletes.foldl (fun acc k => hdel acc k) h7
  let h9 :=
    if isApi then
      hset (hset (hset h8 "Access-Control-Allow-Origin" "*")
        "Access-Control-Allow-Methods" "GET,POST,PUT,DELETE,OPTIONS,PATCH")
        "Access-Control-Allow-Headers" "Content-Type,Authorization,X-API-Key"
    else h8
  { res with headers := h9 }

/-- shieldErrorResponse is the outer-catch 500 of the dispatcher. -/
def shieldErrorResponse : Response := ⟨500, "Shield Error", []⟩

/-- jsTrim removes leading and trailing whitespace, modelling
String.prototype.trim. -/
def jsTrim (s : String) : String :=
  String.mk (((s.data.dropWhile Char.isWhitespace).reverse.dropWhile Char.isWhitespace).reverse)

/-- isWsUpgrade is the protocol-upgrade detection of the dispatcher. -/
def isWsUpgrade (req : Request) : Bool :=
  jsTrim (lowerStr ((Request.header req "Upgrade").getD "")) == "websocket"

/-- shieldFetch embeds the dispatcher fetch of core.js.  wsResp is the
response of the WebSocket relay, handlerResp is the mode handler result
(none models a handler exception caught by the outer catch).  Only the
handler branch passes through fortifyResponse; a URIError thrown inside
the gate also lands in the outer catch and yields the bare 500. -/
def shieldFetch (req : Request) (cfg : Config) (env : SecEnv) (wsResp : Response)
    (handlerResp : Option Response) : Response :=
  if isWsUpgrade req then wsResp
  else
    match (runSecurityPipeline req cfg env).result with
    | SecResult.deny r => r
    | SecResult.uriError => shieldErrorResponse
    | SecResult.pass =>
      match handlerResp with
      | some r => fortifyResponse r cfg env.clientId req.hostname
      | none => shieldErrorResponse

/-! ## Claim C1 -/

/-- reqC1 is an unauthenticated POST to a plain product path. -/
def reqC1 : Request := ⟨"POST", "/products/1", "", "shop.example.com", []⟩

/-- cachedC1 is a fresh cache entry (age one millisecond at the chosen
clock value). -/
def cachedC1 : Response := ⟨200, "cached-page", [("X-Shield-Age", "5000000000000")]⟩

/-- originC1 is a cacheable 200 origin response. -/
def originC1 : Response := ⟨200, "origin-page", []⟩

/-- C1: the claim that the Cache Decision Engine never serves or stores a
cache entry for a write method fails on the code.  The source initializes
shouldCache from the negated write test but both mode branches overwrite
it unconditionally, so an unauthenticated POST in mode STANDARD is served
from the edge cache when an entry exists (tagged HIT), and on a miss the
200 origin response is stored (tagged MISS with a scheduled save). -/
theorem c1_write_method_cached_bug :
    (["POST", "PUT", "DELETE", "PATCH"].contains reqC1.method = true) ∧
    handleWebTraffic reqC1 {} (some cachedC1) 5000000000001 originC1 =
      ⟨addShieldHeader cachedC1 "HIT", []⟩ ∧
    handleWebTraffic reqC1 {} none 5000000000001 originC1 =
      ⟨addShieldHeader originC1 "MISS",
       [WebTask.store (addShieldHeader originC1 "MISS") 3600]⟩ := by
  refine ⟨rfl, ?_, ?_⟩ <;> rfl

/-! ## Claim C4 -/

/-- C4: for a cacheable request with an edge-cache hit, an entry whose
injected freshness timestamp is younger than one hour (3600000 ms) is
served immediately tagged HIT with no deferred task, and an entry one hour
old or older is served stale tagged SWR with exactly one deferred
background refresh scheduled; the returned response is the prior entry in
both cases and never depends on the refresh outcome. -/
theorem c4_swr_freshness (req : Request) (cfg : Config) (c : Response)
    (now age : Int) (origin : Response) (ageStr : String)
    (hsc : webShouldCache req cfg = true)
    (hhdr : hget c.headers "X-Shield-Age" = some ageStr)
    (hage : jsParseInt ageStr = some age) :
    (now - age < 3600000 →
      handleWebTraffic req cfg (some c) now origin = ⟨addShieldHeader c "HIT", []⟩) ∧
    (3600000 ≤ now - age →
      handleWebTraffic req cfg (some c) now origin =
        ⟨addShieldHeader c "SWR", [WebTask.refresh]⟩) := by
  constructor
  · intro h
    simp [handleWebTraffic, hsc, hhdr, hage, if_pos h]
  · intro h
    simp [handleWebTraffic, hsc, hhdr, hage, if_neg (not_lt.mpr h)]

/-- reqC4 is an unauthenticated GET in default mode. -/
def reqC4 : Request := ⟨"GET", "/page", "", "site.example.com", []⟩

/-- cachedC4 is a cache entry stamped at clock 5000000000000. -/
def cachedC4 : Response := ⟨200, "stale-or-fresh", [("X-Shield-Age", "5000000000000")]⟩

/-- originC4 is the origin response behind reqC4. -/
def originC4 : Response := ⟨200, "origin-body", []⟩

/-- Witness for C4 at concrete inputs: one millisecond after the stamp the
entry is served HIT; one hour and one millisecond after it is served SWR
with exactly one refresh scheduled. -/
theorem c4_swr_freshness_witness :
    handleWebTraffic reqC4 {} (some cachedC4) 5000000000001 originC4 =
      ⟨addShieldHeader cachedC4 "HIT", []⟩ ∧
    handleWebTraffic reqC4 {} (some cachedC4) 5003600000001 originC4 =
      ⟨addShieldHeader cachedC4 "SWR", [WebTask.refresh]⟩ := by
  refine ⟨?_, ?_⟩
  · exact (c4_swr_freshness reqC4 {} cachedC4 5000000000001 5000000000000 originC4
      "5000000000000" (by decide) (by rfl) (by rfl)).1 (by decide)
  · exact (c4_swr_freshness reqC4 {} cachedC4 5003600000001 5000000000000 originC4
      "5000000000000" (by decide) (by rfl) (by rfl)).2 (by decide)

/-! ## Claim C5 -/

/-- C5: on an edge-cache miss for an otherwise cacheable request whose
origin response carries a no-store directive, a non-aggressive mode drops
the store and tags BYPASS, while an aggressive mode (ECOMMERCE, STANDARD,
IOT) overrides the directive: the response is tagged MISS and is stored
exactly when the origin status is 200. -/
theorem c5_origin_no_store (req : Request) (cfg : Config) (now : Int) (origin : Response)
    (hsc : webShouldCache req cfg = true)
    (hns : jsIncludes ((hget origin.headers "Cache-Control").getD "") "no-store" = true) :
    (webIsAggressive cfg = false →
      handleWebTraffic req cfg none now origin = ⟨addShieldHeader origin "BYPASS", []⟩) ∧
    (webIsAggressive cfg = true →
      (handleWebTraffic req cfg none now origin).response = addShieldHeader origin "MISS" ∧
      (origin.status = 200 →
        (handleWebTraffic req cfg none now origin).tasks =
          [WebTask.store (addShieldHeader origin "MISS") (jsOrNat cfg.cache_ttl 3600)]) ∧
      (origin.status ≠ 200 → (handleWebTraffic req cfg none now origin).tasks = [])) := by
  constructor
  · intro h
    simp [handleWebTraffic, hsc, hns, h]
  · intro h
    refine ⟨?_, ?_, ?_⟩
    · by_cases h200 : origin.status = 200 <;>
        simp [handleWebTraffic, hsc, hns, h, h200]
    · intro h200
      simp [handleWebTraffic, hsc, hns, h, h200]
    · intro h200
      simp [handleWebTraffic, hsc, hns, h, h200]

/-- reqC5 is an unauthenticated GET used for the C5 witness. -/
def reqC5 : Request := ⟨"GET", "/asset", "", "site.example.com", []⟩

/-- originC5 is a 200 origin response that forbids storage. -/
def originC5 : Response := ⟨200, "payload", [("Cache-Control", "no-store")]⟩

/-- cfgC5saas is a non-aggressive mode configuration. -/
def cfgC5saas : Config := { mode := "SAAS" }

/-- Witness for C5 at concrete inputs: mode SAAS yields BYPASS with no
store, mode STANDARD overrides the directive and stores the MISS-tagged
response. -/
theorem c5_origin_no_store_witness :
    handleWebTraffic reqC5 cfgC5saas none 7 originC5 =
      ⟨addShieldHeader originC5 "BYPASS", []⟩ ∧
    (handleWebTraffic reqC5 {} none 7 originC5).response = addShieldHeader originC5 "MISS" ∧
    (handleWebTraffic reqC5 {} none 7 originC5).tasks =
      [WebTask.store (addShieldHeader originC5 "MISS") 3600] := by
  refine ⟨?_, ?_, ?_⟩
  · exact (c5_origin_no_store reqC5 cfgC5saas 7 originC5 (by decide) (by decide)).1 (by decide)
  · exact ((c5_origin_no_store reqC5 {} 7 originC5 (by decide) (by decide)).2 (by decide)).1
  · exact ((c5_origin_no_store reqC5 {} 7 originC5 (by decide) (by decide)).2 (by decide)).2.1 rfl

/-! ## Claim C2 -/

/-- C2: a semantic-cache lookup returns a hit only when the nearest
neighbor scores at or above the effective threshold and the key-value
payload under its identifier is present; an orphaned vector (score at or
above threshold, payload absent) yields a miss, the lookup performs no
vector deletion, and the default threshold is 0.92.  Totality of the Lean
function reflects that this path raises no error. -/
theorem c2_semantic_cache_hit_conditions (prompt : String) (cfg : Config)
    (qm : List VecMatch) (kv : String → Option String) :
    (∀ h, (semanticCachePipeline prompt cfg qm kv).result = some h →
      ∃ best rest, qm = best :: rest ∧ semanticThreshold cfg ≤ best.score ∧
        kv best.id = some h.payload) ∧
    (∀ best rest, qm = best :: rest → semanticThreshold cfg ≤ best.score →
      kv best.id = none →
      (semanticCachePipeline prompt cfg qm kv).result = none ∧
      ∀ i, SemEffect.vecDelete i ∉ (semanticCachePipeline prompt cfg qm kv).effects) ∧
    semanticThreshold {} = 92 / 100 := by
  refine ⟨?_, ?_, rfl⟩
  · intro h hh
    by_cases hp : prompt.length < 10
    · simp [semanticCachePipeline, hp] at hh
    · cases qm with
      | nil => simp [semanticCachePipeline, hp] at hh
      | cons best rest =>
        by_cases hs : semanticThreshold cfg ≤ best.score
        · cases hkv : kv best.id with
          | some payload =>
            simp [semanticCachePipeline, hp, hs, hkv] at hh
            exact ⟨best, rest, rfl, hs, by rw [hkv, ← hh]⟩
          | none => simp [semanticCachePipeline, hp, hs, hkv] at hh
        · simp [semanticCachePipeline, hp, hs] at hh
  · intro best rest hqm hs hkv
    subst hqm
    by_cases hp : prompt.length < 10
    · simp [semanticCachePipeline, hp]
    · simp [semanticCachePipeline, hp, hs, hkv]

/-- qmC2 is a single nearest-neighbor match scoring 0.95. -/
def qmC2 : List VecMatch := [⟨"prompt-ab12-77", 95 / 100, some "gpt-4o"⟩]

/-- kvC2orphan is a key-value store holding no payloads. -/
def kvC2orphan : String → Option String := fun _ => none

/-- Witness for C2 at concrete inputs: a 0.95 match above the default
threshold whose payload is gone yields a miss and no vector deletion. -/
theorem c2_semantic_cache_witness :
    (semanticCachePipeline "what is the capital of France" {} qmC2 kvC2orphan).result = none ∧
    ∀ i, SemEffect.vecDelete i ∉
      (semanticCachePipeline "what is the capital of France" {} qmC2 kvC2orphan).effects := by
  exact (c2_semantic_cache_hit_conditions "what is the capital of France" {} qmC2
    kvC2orphan).2.1 ⟨"prompt-ab12-77", 95 / 100, some "gpt-4o"⟩ [] rfl
    (by norm_num [semanticThreshold, jsOrQ]) rfl

/-! ## Claim C8 -/

/-- C8: router validation, in check order.  A method outside the allowed
set receives the 405 response carrying an Allow header; a write method not
declaring application/json receives the 400 response; a request passing
those with a declared content length above the cap (default 10485760)
receives the 413 response; a request passing all three checks is not
rejected by validation. -/
theorem c8_validate_ai_request (req : Request) (cfg : Config) :
    (allowedAIMethods.contains req.method = false →
      validateAIRequest req cfg = some ai405Response ∧
      ai405Response.status = 405 ∧
      hget ai405Response.headers "Allow" = some "POST, GET, PUT, PATCH") ∧
    (allowedAIMethods.contains req.method = true →
      aiWriteMethods.contains req.method = true →
      jsIncludes ((Request.header req "content-type").getD "") "application/json" = false →
      validateAIRequest req cfg = some ai400Response ∧ ai400Response.status = 400) ∧
    (allowedAIMethods.contains req.method = true →
      (aiWriteMethods.contains req.method = true →
        jsIncludes ((Request.header req "content-type").getD "") "application/json" = true) →
      ∀ n, jsParseInt ((Request.header req "content-length").getD "0") = some n →
        (jsOrNat cfg.ai_max_request_size 10485760 : Int) < n →
        validateAIRequest req cfg =
          some (ai413Response (jsOrNat cfg.ai_max_request_size 10485760)) ∧
        (ai413Response (jsOrNat cfg.ai_max_request_size 10485760)).status = 413) ∧
    (allowedAIMethods.contains req.method = true →
      (aiWriteMethods.contains req.method = true →
        jsIncludes ((Request.header req "content-type").getD "") "application/json" = true) →
      (∀ n, jsParseInt ((Request.header req "content-length").getD "0") = some n →
        n ≤ (jsOrNat cfg.ai_max_request_size 10485760 : Int)) →
      validateAIRequest req cfg = none) := by
  refine ⟨?_, ?_, ?_, ?_⟩
  · intro hm
    have hm' : ¬ (req.method ∈ allowedAIMethods) := by simpa using hm
    exact ⟨by simp [validateAIRequest, hm'], rfl, rfl⟩
  · intro hm hw hct
    have hm' : req.method ∈ allowedAIMethods := by simpa using hm
    have hw' : req.method ∈ aiWriteMethods := by simpa using hw
    exact ⟨by simp [validateAIRequest, hm', hw', hct], rfl⟩
  · intro hm hj n hn hlt
    have hm' : req.method ∈ allowedAIMethods := by simpa using hm
    refine ⟨?_, rfl⟩
    by_cases hw : aiWriteMethods.contains req.method = true
    · have hw' : req.method ∈ aiWriteMethods := by simpa using hw
      simp [validateAIRequest, hm', hw', hj hw, hn, hlt]
    · have hw' : ¬ (req.method ∈ aiWriteMethods) := by simpa using hw
      simp [validateAIRequest, hm', hw', hn, hlt]
  · intro hm hj hle
    have hm' : req.method ∈ allowedAIMethods := by simpa using hm
    have hno : ¬ (req.method ∈ aiWriteMethods ∧
        jsIncludes ((Request.header req "content-type").getD "") "application/json" = false) := by
      rintro ⟨hw', hctf⟩
      have hw : aiWriteMethods.contains req.method = true := by simpa using hw'
      simp [hj hw] at hctf
    cases hn : jsParseInt ((Request.header req "content-length").getD "0") with
    | none => simp [validateAIRequest, hm', hno, hn]
    | some n =>
      simp [validateAIRequest, hm', hno, hn, if_neg (not_lt.mpr (hle n hn))]

/-- reqC8del is a DELETE request, outside the allowed method set. -/
def reqC8del : Request := ⟨"DELETE", "/v1/chat/completions", "", "ai.example.com", []⟩

/-- reqC8big is a JSON POST declaring a 20 MB body. -/
def reqC8big : Request :=
  ⟨"POST", "/v1/chat/completions", "", "ai.example.com",
   [("content-type", "application/json"), ("content-length", "20971520")]⟩

/-- Witness for C8 at concrete inputs: a DELETE is rejected 405 and an
oversized JSON POST is rejected 413 at the default cap. -/
theorem c8_validate_ai_request_witness :
    validateAIRequest reqC8del {} = some ai405Response ∧
    validateAIRequest reqC8big {} = some (ai413Response 10485760) := by
  constructor
  · exact ((c8_validate_ai_request reqC8del {}).1 (by decide)).1
  · exact ((c8_validate_ai_request reqC8big {}).2.2.1 (by decide) (fun _ => by decide)
      20971520 (by decide) (by decide)).1

/-! ## Claim C3 -/

/-- reqC3ce is a static-asset request whose decoded path contains a
doubled slash, but only as its leading characters. -/
def reqC3ce : Request := ⟨"GET", "//logo.jpg", "", "cdn.example.com", []⟩

/-- envC3 is a bound, empty bucket with a 200 origin behind it. -/
def envC3 : R2Env :=
  ⟨true, false, fun _ => none,
   ⟨200, "img-bytes", [("Content-Type", "image/jpeg"), ("Content-Length", "5000")]⟩⟩

/-- C3 counterexample: the path of reqC3ce contains a doubled slash, yet
the Storage Mirror Engine does not answer 400 and does access the bucket.
The source strips one leading slash before the traversal check, so the key
of path //logo.jpg is /logo.jpg, which passes the check; the handler
performs a bucket get and returns the origin response tagged R2-MISS with
status 200. -/
theorem c3_counterexample_leading_double_slash :
    jsIncludes reqC3ce.pathname "//" = true ∧
    handleR2Storage reqC3ce envC3 =
      R2Outcome.served (addShieldHeader envC3.origin "R2-MISS")
        [R2Effect.bucketGet "/logo.jpg"] [R2Task.mirror "/logo.jpg"] ∧
    (addShieldHeader envC3.origin "R2-MISS").status = 200 := by
  exact ⟨by decide, rfl, rfl⟩

/-- C3 amended: for a request dispatched to the Storage Mirror Engine that
passes the static-extension gate with the bucket bound, if the path AFTER
STRIPPING ONE LEADING SLASH still contains a parent-directory segment or a
doubled slash, the response is 400 Invalid path and no bucket access and
no task occurs. -/
theorem c3_sanitized_key_traversal_rejected (req : Request) (env : R2Env)
    (hext : staticExtTest req.pathname = true)
    (hb : env.bucketBound = true)
    (hkey : (jsIncludes (r2KeyOf req.pathname) ".." ||
             jsIncludes (r2KeyOf req.pathname) "//") = true) :
    handleR2Storage req env = R2Outcome.served ⟨400, "Invalid path", []⟩ [] [] := by
  simp [handleR2Storage, hext, hb, hkey]

/-- reqC3w is a static-asset request with an interior traversal segment. -/
def reqC3w : Request := ⟨"GET", "/a/../secret.jpg", "", "cdn.example.com", []⟩

/-- Witness for the amended C3: the interior dot-dot path is rejected 400
with no bucket access. -/
theorem c3_sanitized_key_traversal_witness :
    handleR2Storage reqC3w envC3 = R2Outcome.served ⟨400, "Invalid path", []⟩ [] [] := by
  exact c3_sanitized_key_traversal_rejected reqC3w envC3 (by decide) (by decide) (by decide)

/-! ## Claim C7 -/

/-- mirrorEligible restates the eligibility conditions of the claim as a
proposition over the origin response headers: a declared content length
parsing to a value strictly between 0 and 100 MB, a content type matching
the mirrorable allowlist, and a Cache-Control containing neither no-store
nor private. -/
def mirrorEligible (h : List (String × String)) : Prop :=
  ∃ n : Int, jsParseInt ((hget h "Content-Length").getD "0") = some n ∧ 0 < n ∧
    n < 104857600 ∧
    mirrorableTypes.any (fun t => jsIncludes ((hget h "Content-Type").getD "") t) = true ∧
    jsIncludes ((hget h "Cache-Control").getD "") "no-store" = false ∧
    jsIncludes ((hget h "Cache-Control").getD "") "private" = false

/-- shouldMirror_iff_eligible connects the eligibility test from the
source with the claim-side proposition. -/
theorem shouldMirror_iff_eligible (h : List (String × String)) :
    shouldMirror h = true ↔ mirrorEligible h := by
  unfold shouldMirror mirrorEligible
  cases hp : jsParseInt ((hget h "Content-Length").getD "0") with
  | none => simp [hp]
  | some n => simp [hp, Bool.and_eq_true, decide_eq_true_eq, and_assoc]

/-- C7: on a storage-mirror bucket miss with a valid sanitized key, if the
origin returns 200 the caller gets the origin response tagged R2-MISS and
exactly one background mirror task is scheduled, and the task writes the
object under the sanitized key if and only if the eligibility conditions
hold; if the origin status is not 200 no mirror task is scheduled at all.
The caller-visible response is the tagged origin response in both cases,
independent of the mirror outcome. -/
theorem c7_mirror_eligibility (req : Request) (env : R2Env)
    (hext : staticExtTest req.pathname = true)
    (hb : env.bucketBound = true)
    (hkey : (jsIncludes (r2KeyOf req.pathname) ".." ||
             jsIncludes (r2KeyOf req.pathname) "//") = false)
    (hmiss : (if env.getRaises then none else env.bucket (r2KeyOf req.pathname)) = none) :
    (env.origin.status = 200 →
      handleR2Storage req env =
        R2Outcome.served (addShieldHeader env.origin "R2-MISS")
          [R2Effect.bucketGet (r2KeyOf req.pathname)] [R2Task.mirror (r2KeyOf req.pathname)] ∧
      (mirrorPuts (r2KeyOf req.pathname) env.origin = [r2KeyOf req.pathname] ↔
        mirrorEligible env.origin.headers) ∧
      (mirrorPuts (r2KeyOf req.pathname) env.origin = [] ↔
        ¬ mirrorEligible env.origin.headers)) ∧
    (env.origin.status ≠ 200 →
      handleR2Storage req env =
        R2Outcome.served (addShieldHeader env.origin "R2-MISS")
          [R2Effect.bucketGet (r2KeyOf req.pathname)] []) := by
  constructor
  · intro h200
    refine ⟨?_, ?_, ?_⟩
    · simp [handleR2Storage, hext, hb, hkey, hmiss, h200]
    · by_cases hsm : shouldMirror env.origin.headers = true
      · simp [mirrorPuts, hsm, (shouldMirror_iff_eligible _).mp hsm]
      · have hne : ¬ mirrorEligible env.origin.headers :=
          fun he => hsm ((shouldMirror_iff_eligible _).mpr he)
        simp [mirrorPuts, hsm, hne]
    · by_cases hsm : shouldMirror env.origin.headers = true
      · simp [mirrorPuts, hsm, (shouldMirror_iff_eligible _).mp hsm]
      · have hne : ¬ mirrorEligible env.origin.headers :=
          fun he => hsm ((shouldMirror_iff_eligible _).mpr he)
        simp [mirrorPuts, hsm, hne]
  · intro h200
    simp [handleR2Storage, hext, hb, hkey, hmiss, h200]

/-- reqC7 is a static-asset request with a clean key. -/
def reqC7 : Request := ⟨"GET", "/img/cat.jpg", "", "cdn.example.com", []⟩

/-- envC7 is a bound, empty bucket with an eligible 200 origin response. -/
def envC7 : R2Env :=
  ⟨true, false, fun _ => none,
   ⟨200, "cat-bytes", [("Content-Type", "image/jpeg"), ("Content-Length", "5000")]⟩⟩

/-- originC7private is an origin response excluded by a private cache
directive. -/
def originC7private : Response :=
  ⟨200, "cat-bytes", [("Content-Type", "image/jpeg"), ("Content-Length", "5000"),
   ("Cache-Control", "private")]⟩

/-- Witness for C7 at concrete inputs: the eligible image is mirrored
under the sanitized key img/cat.jpg, while the same response with a
private directive is not mirrored. -/
theorem c7_mirror_eligibility_witness :
    handleR2Storage reqC7 envC7 =
      R2Outcome.served (addShieldHeader envC7.origin "R2-MISS")
        [R2Effect.bucketGet "img/cat.jpg"] [R2Task.mirror "img/cat.jpg"] ∧
    mirrorPuts "img/cat.jpg" envC7.origin = ["img/cat.jpg"] ∧
    mirrorPuts "img/cat.jpg" originC7private = [] := by
  have t := (c7_mirror_eligibility reqC7 envC7 (by decide) (by decide) (by decide) rfl).1 rfl
  refine ⟨t.1, ?_, by decide⟩
  exact t.2.1.mpr ⟨5000, rfl, by decide, by decide, by decide, rfl, rfl⟩

/-! ## Claim C6 -/

/-- C6: with the key-value store bound and rate limiting enabled, and the
earlier gate rules passing, a counter at or above the effective threshold
(default 100) yields the 429 response with Retry-After 60 and no scheduled
increment (the denial happens before rule E, so it holds for any query
string); a counter below the threshold lets the request continue through
the gate with exactly one deferred increment scheduled, provided the later
rules also pass (no purge command, the query string decodes, and the scan
finds nothing); a thrown counter read is fail-open: under the same later
conditions the request continues and nothing is scheduled. -/
theorem c6_rate_limit_gate (req : Request) (cfg : Config) (env : SecEnv)
    (hcors : corsCond req cfg = false)
    (hgeo : geoCond cfg (jsOrStr env.country "XX") = false)
    (hkv : env.kvBound = true)
    (hen : cfg.rate_limit_enabled = true) :
    (∀ v c, env.kvRead = KVRead.ok v →
      jsParseInt (v.getD "0") = some c →
      (jsOrNat cfg.rate_limit_threshold 100 : Int) ≤ c →
      runSecurityPipeline req cfg env = ⟨SecResult.deny rateLimitResponse, []⟩ ∧
      rateLimitResponse.status = 429 ∧
      hget rateLimitResponse.headers "Retry-After" = some "60") ∧
    (∀ v c d, env.kvRead = KVRead.ok v →
      jsParseInt (v.getD "0") = some c →
      c < (jsOrNat cfg.rate_limit_threshold 100 : Int) →
      Request.header req "X-CloudEdging-Command" ≠ some "PURGE" →
      decodeURIComponent req.search = some d →
      wafCond req.pathname req.search d = false →
      runSecurityPipeline req cfg env =
        ⟨SecResult.pass, [SecTask.rlIncrement
          ("RL_" ++ jsTemplate env.clientId "undefined" ++ "_" ++
           jsTemplate (Request.header req "CF-Connecting-IP") "null") (some c)]⟩) ∧
    (∀ d, env.kvRead = KVRead.threw →
      Request.header req "X-CloudEdging-Command" ≠ some "PURGE" →
      decodeURIComponent req.search = some d →
      wafCond req.pathname req.search d = false →
      runSecurityPipeline req cfg env = ⟨SecResult.pass, []⟩) := by
  refine ⟨?_, ?_, ?_⟩
  · intro v c hv hc hle
    refine ⟨?_, rfl, rfl⟩
    simp [runSecurityPipeline, rateStage, hcors, hgeo, hkv, hen, hv, hc, if_pos hle]
  · intro v c d hv hc hlt hpg hd hwaf
    simp [runSecurityPipeline, rateStage, hcors, hgeo, hkv, hen, hv, hc,
      if_neg (not_le.mpr hlt), hpg, hd, hwaf]
  · intro d hv hpg hd hwaf
    simp [runSecurityPipeline, rateStage, hcors, hgeo, hkv, hen, hv, hpg, hd, hwaf]

/-- reqC6 is a plain GET carrying a client IP. -/
def reqC6 : Request := ⟨"GET", "/home", "", "www.example.com", [("CF-Connecting-IP", "1.2.3.4")]⟩

/-- cfgC6 enables rate limiting at the default threshold. -/
def cfgC6 : Config := { rate_limit_enabled := true }

/-- envC6at is an environment whose counter reads 150, above threshold. -/
def envC6at : SecEnv := ⟨true, some "acme", none, KVRead.ok (some "150"), none, true⟩

/-- envC6under is an environment whose counter reads 3, below threshold. -/
def envC6under : SecEnv := ⟨true, some "acme", none, KVRead.ok (some "3"), none, true⟩

/-- envC6threw is an environment whose counter read throws. -/
def envC6threw : SecEnv := ⟨true, some "acme", none, KVRead.threw, none, true⟩

/-- Witness for C6 at concrete inputs: counter 150 is rejected 429 with no
increment, counter 3 continues with exactly one increment under the
per-client-per-IP key, and a thrown read continues with nothing. -/
theorem c6_rate_limit_gate_witness :
    runSecurityPipeline reqC6 cfgC6 envC6at = ⟨SecResult.deny rateLimitResponse, []⟩ ∧
    runSecurityPipeline reqC6 cfgC6 envC6under =
      ⟨SecResult.pass, [SecTask.rlIncrement "RL_acme_1.2.3.4" (some 3)]⟩ ∧
    runSecurityPipeline reqC6 cfgC6 envC6threw = ⟨SecResult.pass, []⟩ := by
  refine ⟨?_, ?_, ?_⟩
  · exact ((c6_rate_limit_gate reqC6 cfgC6 envC6at (by decide) (by decide) rfl rfl).1
      (some "150") 150 rfl rfl (by decide)).1
  · exact (c6_rate_limit_gate reqC6 cfgC6 envC6under (by decide) (by decide) rfl rfl).2.1
      (some "3") 3 "" rfl rfl (by decide) (by decide) rfl (by decide)
  · exact (c6_rate_limit_gate reqC6 cfgC6 envC6threw (by decide) (by decide) rfl rfl).2.2
      "" rfl (by decide) rfl (by decide)

/-! ## Claim C9 -/

/-- reqC9ce is a query-less request whose path carries a script tag. -/
def reqC9ce : Request := ⟨"GET", "/blog/<script>alert", "", "www.example.com", []⟩

/-- envC9 is a quiet security environment: no key-value store, no purge. -/
def envC9 : SecEnv := ⟨false, none, none, KVRead.threw, none, true⟩

/-- C9 counterexample: the path of reqC9ce contains a script-tag signature
and no earlier rule terminates the request, yet the pipeline passes the
request untouched, because the pattern scan only runs when the query
string is non-empty or the path contains a dot-dot. -/
theorem c9_counterexample_path_only_signature :
    jsIncludesCI reqC9ce.pathname "<script>" = true ∧
    runSecurityPipeline reqC9ce {} envC9 = ⟨SecResult.pass, []⟩ := by
  exact ⟨by decide, rfl⟩

/-- C9 amended: for a request not terminated by an earlier gate rule whose
query string decodes successfully, the pattern filter returns 403 whenever
the scan guard holds (the query string is non-empty or the path contains a
dot-dot) and the decoded query string concatenated with the path contains
a script tag, a SQL-injection signature, a boolean-tautology signature, or
a traversal sequence; a signature appearing only in the path of a
query-less, dot-dot-free request is not filtered; and a query string on
which decodeURIComponent throws aborts rule E with a URIError (surfaced by
the dispatcher as the outer-catch 500) instead of a 403. -/
theorem c9_waf_filter_amended (req : Request) (cfg : Config) (env : SecEnv)
    (hcors : corsCond req cfg = false)
    (hgeo : geoCond cfg (jsOrStr env.country "XX") = false)
    (hrate : (rateStage req cfg env).1 = none)
    (hpurge : Request.header req "X-CloudEdging-Command" ≠ some "PURGE") :
    (∀ d, decodeURIComponent req.search = some d →
      wafCond req.pathname req.search d = true →
      runSecurityPipeline req cfg env =
        ⟨SecResult.deny wafForbiddenResponse, (rateStage req cfg env).2⟩ ∧
      wafForbiddenResponse.status = 403) ∧
    (decodeURIComponent req.search = none →
      runSecurityPipeline req cfg env =
        ⟨SecResult.uriError, (rateStage req cfg env).2⟩) := by
  cases hrs : rateStage req cfg env with
  | mk r ts =>
    rw [hrs] at hrate
    have hr : r = none := hrate
    subst hr
    constructor
    · intro d hd hwaf
      refine ⟨?_, rfl⟩
      simp [runSecurityPipeline, hcors, hgeo, hrs, hpurge, hd, hwaf]
    · intro hd
      simp [runSecurityPipeline, hcors, hgeo, hrs, hpurge, hd]

/-- reqC9w carries the script-tag signature percent-encoded in its query
string. -/
def reqC9w : Request := ⟨"GET", "/search", "?q=%3Cscript%3Ealert", "www.example.com", []⟩

/-- reqC9bad carries a malformed percent-escape in its query string, on
which decodeURIComponent throws. -/
def reqC9bad : Request := ⟨"GET", "/search", "?%zzUNION%20SELECT", "www.example.com", []⟩

/-- Witness for the amended C9: a script tag in the decoded query string
is rejected 403, while a malformed query aborts rule E with a URIError. -/
theorem c9_waf_filter_amended_witness :
    runSecurityPipeline reqC9w {} envC9 = ⟨SecResult.deny wafForbiddenResponse, []⟩ ∧
    runSecurityPipeline reqC9bad {} envC9 = ⟨SecResult.uriError, []⟩ := by
  constructor
  · exact ((c9_waf_filter_amended reqC9w {} envC9 (by decide) (by decide) rfl
      (by decide)).1 "?q=<script>alert" rfl (by decide)).1
  · exact (c9_waf_filter_amended reqC9bad {} envC9 (by decide) (by decide) rfl
      (by decide)).2 rfl

/-! ## Claim C10 -/

/-- find?_skip_filter_ne states that filtering out entries whose key
matches k does not change a lookup for a different key k2. -/
theorem find?_skip_filter_ne (k k2 : String) (l : List (String × String))
    (hne : (lowerStr k == lowerStr k2) = false) :
    (l.filter (fun p => lowerStr p.1 != lowerStr k)).find?
        (fun p => lowerStr p.1 == lowerStr k2) =
      l.find? (fun p => lowerStr p.1 == lowerStr k2) := by
  induction l with
  | nil => rfl
  | cons x xs ih =>
    by_cases hx : (lowerStr x.1 == lowerStr k2) = true
    · have hx' : lowerStr x.1 = lowerStr k2 := eq_of_beq hx
      have hne' : lowerStr k ≠ lowerStr k2 := by simpa using hne
      have hq : (lowerStr x.1 != lowerStr k) = true := by
        rw [hx']
        exact bne_iff_ne.mpr (fun hh => hne' hh.symm)
      simp [List.filter_cons, hq, List.find?_cons_of_pos, hx]
    · have hx0 : (lowerStr x.1 == lowerStr k2) = false := by
        simpa using hx
      by_cases hq : (lowerStr x.1 != lowerStr k) = true
      · simp [List.filter_cons, hq, List.find?_cons_of_neg, hx0, ih]
      · have hq0 : (lowerStr x.1 != lowerStr k) = false := by simpa using hq
        simp [List.filter_cons, hq0, List.find?_cons_of_neg, hx0, ih]

/-- hget_hset_self: setting a header makes it readable. -/
theorem hget_hset_self (h : List (String × String)) (k v : String) :
    hget (hset h k v) k = some v := by
  unfold hget hset
  rw [List.find?_cons_of_pos _ (by simp)]
  rfl

/-- hget_hset_ne: setting one header leaves a different header alone. -/
theorem hget_hset_ne (h : List (String × String)) (k v k2 : String)
    (hne : (lowerStr k == lowerStr k2) = false) :
    hget (hset h k v) k2 = hget h k2 := by
  unfold hget hset
  rw [List.find?_cons_of_neg _ (by simp [hne]), find?_skip_filter_ne k k2 h hne]

/-- hget_hdel_ne: deleting one header leaves a different header alone. -/
theorem hget_hdel_ne (h : List (String × String)) (k k2 : String)
    (hne : (lowerStr k == lowerStr k2) = false) :
    hget (hdel h k) k2 = hget h k2 := by
  unfold hget hdel
  rw [find?_skip_filter_ne k k2 h hne]

/-- fortify_sets_hsts: every fortified response carries the
Strict-Transport-Security header. -/
theorem fortify_sets_hsts (res : Response) (cfg : Config) (clientId : Option String)
    (hostname : String) :
    hget (fortifyResponse res cfg clientId hostname).headers "Strict-Transport-Security" =
      some "max-age=31536000; includeSubDomains; preload" := by
  unfold fortifyResponse
  by_cases hapi : (cfg.mode == "API" || jsIncludes hostname "api.") = true
  · simp only [hapi, fortifyHeaderDeletes, List.foldl_cons, List.foldl_nil,
      Bool.not_true, Bool.false_eq_true, if_false, if_true]
    rw [hget_hset_ne _ "Access-Control-Allow-Headers" _ "Strict-Transport-Security" (by decide),
      hget_hset_ne _ "Access-Control-Allow-Methods" _ "Strict-Transport-Security" (by decide),
      hget_hset_ne _ "Access-Control-Allow-Origin" _ "Strict-Transport-Security" (by decide),
      hget_hdel_ne _ "x-origin-server" "Strict-Transport-Security" (by decide),
      hget_hdel_ne _ "via" "Strict-Transport-Security" (by decide),
      hget_hdel_ne _ "x-vignette" "Strict-Transport-Security" (by decide),
      hget_hdel_ne _ "x-runtime" "Strict-Transport-Security" (by decide),
      hget_hdel_ne _ "x-aspnet-version" "Strict-Transport-Security" (by decide),
      hget_hdel_ne _ "x-powered-by" "Strict-Transport-Security" (by decide),
      hget_hdel_ne _ "server" "Strict-Transport-Security" (by decide),
      hget_hset_ne _ "Referrer-Policy" _ "Strict-Transport-Security" (by decide),
      hget_hset_ne _ "X-Frame-Options" _ "Strict-Transport-Security" (by decide),
      hget_hset_ne _ "X-Content-Type-Options" _ "Strict-Transport-Security" (by decide)]
    exact hget_hset_self _ _ _
  · have hapi0 : (cfg.mode == "API" || jsIncludes hostname "api.") = false := by
      simpa using hapi
    simp only [hapi0, fortifyHeaderDeletes, List.foldl_cons, List.foldl_nil,
      Bool.not_false, Bool.false_eq_true, if_false, if_true]
    rw [hget_hdel_ne _ "x-origin-server" "Strict-Transport-Security" (by decide),
      hget_hdel_ne _ "via" "Strict-Transport-Security" (by decide),
      hget_hdel_ne _ "x-vignette" "Strict-Transport-Security" (by decide),
      hget_hdel_ne _ "x-runtime" "Strict-Transport-Security" (by decide),
      hget_hdel_ne _ "x-aspnet-version" "Strict-Transport-Security" (by decide),
      hget_hdel_ne _ "x-powered-by" "Strict-Transport-Security" (by decide),
      hget_hdel_ne _ "server" "Strict-Transport-Security" (by decide),
      hget_hset_ne _ "Content-Security-Policy" _ "Strict-Transport-Security" (by decide),
      hget_hset_ne _ "Referrer-Policy" _ "Strict-Transport-Security" (by decide),
      hget_hset_ne _ "X-Frame-Options" _ "Strict-Transport-Security" (by decide),
      hget_hset_ne _ "X-Content-Type-Options" _ "Strict-Transport-Security" (by decide)]
    exact hget_hset_self _ _ _

/-- rateStage_result: the rate-limit stage either passes or answers with
exactly the canned 429 response. -/
theorem rateStage_result (req : Request) (cfg : Config) (env : SecEnv) :
    (rateStage req cfg env).1 = none ∨ (rateStage req cfg env).1 = some rateLimitResponse := by
  by_cases hb : (env.kvBound && cfg.rate_limit_enabled) = true
  · cases hkv : env.kvRead with
    | threw => simp [rateStage, hb, hkv]
    | ok v =>
      cases hp : jsParseInt (v.getD "0") with
      | none => simp [rateStage, hb, hkv, hp]
      | some c =>
        by_cases hle : (jsOrNat cfg.rate_limit_threshold 100 : Int) ≤ c
        · simp [rateStage, hb, hkv, hp, hle]
        · simp [rateStage, hb, hkv, hp, hle]
  · simp [rateStage, hb]

/-- secResult_no_fortify_headers: every terminal response produced by the
Security Gate lacks the fortification headers (shown here for the
Strict-Transport-Security and version headers). -/
theorem secResult_no_fortify_headers (req : Request) (cfg : Config) (env : SecEnv)
    (r : Response) (h : (runSecurityPipeline req cfg env).result = SecResult.deny r) :
    hget r.headers "Strict-Transport-Security" = none ∧
    hget r.headers "X-Shield-Version" = none := by
  have hrs := rateStage_result req cfg env
  unfold runSecurityPipeline at h
  by_cases hc : corsCond req cfg = true
  · simp only [hc, if_true] at h
    have hr : corsPreflightResponse = r := by simpa using h
    subst hr
    exact ⟨rfl, rfl⟩
  · simp only [hc, Bool.false_eq_true, if_false] at h
    by_cases hg : geoCond cfg (jsOrStr env.country "XX") = true
    · simp only [hg, if_true] at h
      have hr : geoBlockResponse (jsOrStr env.country "XX") = r := by simpa using h
      subst hr
      exact ⟨rfl, rfl⟩
    · simp only [hg, Bool.false_eq_true, if_false] at h
      cases hreq : rateStage req cfg env with
      | mk ro ts =>
        rw [hreq] at h hrs
        cases ro with
        | some r' =>
          have hr' : r' = rateLimitResponse := by
            rcases hrs with h1 | h1
            · exact absurd h1 (by simp)
            · simpa using h1
          subst hr'
          have hr : rateLimitResponse = r := by simpa using h
          subst hr
          exact ⟨rfl, rfl⟩
        | none =>
          by_cases hp : (Request.header req "X-CloudEdging-Command" == some "PURGE") = true
          · simp only [hp, if_true] at h
            by_cases hm : (!purgeTokenMatches (Request.header req "X-CloudEdging-Purge-Token")
                (jsOrStrOpt cfg.purge_secret env.purgeSecretEnv)) = true
            · simp only [hm, if_true] at h
              have hr : purgeForbiddenResponse = r := by simpa using h
              subst hr
              exact ⟨rfl, rfl⟩
            · simp only [hm, Bool.false_eq_true, if_false] at h
              by_cases hd : env.cacheDeleteOk = true
              · simp only [hd, if_true] at h
                have hr : purgeOkResponse = r := by simpa using h
                subst hr
                exact ⟨rfl, rfl⟩
              · simp only [hd, Bool.false_eq_true, if_false] at h
                have hr : purgeFailResponse = r := by simpa using h
                subst hr
                exact ⟨rfl, rfl⟩
          · simp only [hp, Bool.false_eq_true, if_false] at h
            cases hdec : decodeURIComponent req.search with
            | none =>
              simp only [hdec] at h
              simp at h
            | some d =>
              simp only [hdec] at h
              by_cases hw : wafCond req.pathname req.search d = true
              · simp only [hw, if_true] at h
                have hr : wafForbiddenResponse = r := by simpa using h
                subst hr
                exact ⟨rfl, rfl⟩
              · simp only [hw, Bool.false_eq_true, if_false] at h
                simp at h

/-- C10: response fortification is applied exactly to mode-handler
responses.  A WebSocket upgrade is relayed as-is; a terminal Security Gate
response is returned as-is and carries none of the fortification headers;
a handler response is passed through fortifyResponse, which stamps the
Strict-Transport-Security header; the outer-catch 500 — reached when the
handler throws, or when rule E throws URIError on a malformed query — is
returned as-is without those headers. -/
theorem c10_fortify_only_mode_handler (req : Request) (cfg : Config) (env : SecEnv)
    (ws : Response) (handlerResp : Option Response) :
    (isWsUpgrade req = true → shieldFetch req cfg env ws handlerResp = ws) ∧
    (isWsUpgrade req = false →
      ∀ r, (runSecurityPipeline req cfg env).result = SecResult.deny r →
      shieldFetch req cfg env ws handlerResp = r ∧
      hget r.headers "Strict-Transport-Security" = none ∧
      hget r.headers "X-Shield-Version" = none) ∧
    (isWsUpgrade req = false →
      (runSecurityPipeline req cfg env).result = SecResult.pass →
      ∀ resp, handlerResp = some resp →
        shieldFetch req cfg env ws handlerResp =
          fortifyResponse resp cfg env.clientId req.hostname ∧
        hget (shieldFetch req cfg env ws handlerResp).headers "Strict-Transport-Security" =
          some "max-age=31536000; includeSubDomains; preload") ∧
    (isWsUpgrade req = false →
      (runSecurityPipeline req cfg env).result = SecResult.pass →
      handlerResp = none →
      shieldFetch req cfg env ws handlerResp = shieldErrorResponse ∧
      hget shieldErrorResponse.headers "Strict-Transport-Security" = none) ∧
    (isWsUpgrade req = false →
      (runSecurityPipeline req cfg env).result = SecResult.uriError →
      shieldFetch req cfg env ws handlerResp = shieldErrorResponse ∧
      hget shieldErrorResponse.headers "Strict-Transport-Security" = none) := by
  refine ⟨?_, ?_, ?_, ?_, ?_⟩
  · intro hws
    simp [shieldFetch, hws]
  · intro hws r hr
    refine ⟨?_, secResult_no_fortify_headers req cfg env r hr⟩
    simp [shieldFetch, hws, hr]
  · intro hws hr resp hresp
    have he : shieldFetch req cfg env ws handlerResp =
        fortifyResponse resp cfg env.clientId req.hostname := by
      simp [shieldFetch, hws, hr, hresp]
    exact ⟨he, by rw [he]; exact fortify_sets_hsts resp cfg env.clientId req.hostname⟩
  · intro hws hr hresp
    exact ⟨by simp [shieldFetch, hws, hr, hresp], rfl⟩
  · intro hws hr
    exact ⟨by simp [shieldFetch, hws, hr], rfl⟩

/-- reqC10opts is a CORS preflight in API mode, terminated by the gate. -/
def reqC10opts : Request := ⟨"OPTIONS", "/api/items", "", "api.example.com", []⟩

/-- reqC10get is a plain GET that reaches the mode handler. -/
def reqC10get : Request := ⟨"GET", "/home", "", "www.example.com", []⟩

/-- envC10 is a quiet security environment. -/
def envC10 : SecEnv := ⟨false, some "acme", none, KVRead.threw, none, true⟩

/-- wsC10 is a placeholder relay response, unused by the witness cases. -/
def wsC10 : Response := ⟨101, "", []⟩

/-- handlerC10 is a mode-handler response carried into fortification. -/
def handlerC10 : Response := ⟨200, "page", [("Server", "nginx")]⟩

/-- cfgC10api is the API mode configuration. -/
def cfgC10api : Config := { mode := "API" }

/-- reqC10bad is a GET whose query string carries a lone percent sign, on
which decodeURIComponent throws in rule E. -/
def reqC10bad : Request := ⟨"GET", "/sale", "?discount=100%", "www.example.com", []⟩

/-- Witness for C10 at concrete inputs: the gate-terminated preflight is
returned exactly as the canned 204 without fortification headers, the
handler response is fortified and carries Strict-Transport-Security, and
a malformed query reaches the outer catch and yields the bare 500 even
though a handler response was available. -/
theorem c10_fortify_only_mode_handler_witness :
    shieldFetch reqC10opts cfgC10api envC10 wsC10 (some handlerC10) = corsPreflightResponse ∧
    hget corsPreflightResponse.headers "Strict-Transport-Security" = none ∧
    hget (shieldFetch reqC10get {} envC10 wsC10 (some handlerC10)).headers
      "Strict-Transport-Security" = some "max-age=31536000; includeSubDomains; preload" ∧
    shieldFetch reqC10bad {} envC10 wsC10 (some handlerC10) = shieldErrorResponse := by
  have t1 := (c10_fortify_only_mode_handler reqC10opts cfgC10api envC10 wsC10
    (some handlerC10)).2.1 (by decide) corsPreflightResponse rfl
  have t2 := (c10_fortify_only_mode_handler reqC10get {} envC10 wsC10
    (some handlerC10)).2.2.1 (by decide) rfl handlerC10 rfl
  have t3 := (c10_fortify_only_mode_handler reqC10bad {} envC10 wsC10
    (some handlerC10)).2.2.2.2 (by decide) rfl
  exact ⟨t1.1, t1.2.1, t2.2, t3.1⟩

end Shield
